import Mathlib

/-!
Shallow embedding of the timetable-scheduling core of the hospital-management
repository (timetable_service.py, account_service.py).

An instant (`datetime`) is modelled as the number of microseconds since an
epoch that falls on a zero-second, zero-minute boundary; comparison of two
instants is comparison of these numbers, and `minute`, `second` and
`microsecond` are the derived components, exactly as in the source where
instants are naive datetimes compared in one timezone.  The database is a
list of rows passed in and out of each operation; remote HTTP collaborators
are modelled by the status code their lookup returns.
-/

namespace TimetableService

/-- A naive instant: microseconds since an epoch aligned at second zero. -/
abbrev DateTime := Nat

/-- The `minute` component of an instant. -/
def dtMinute (d : DateTime) : Nat := d / 60000000 % 60

/-- The `second` component of an instant. -/
def dtSecond (d : DateTime) : Nat := d / 1000000 % 60

/-- The `microsecond` component of an instant. -/
def dtMicrosecond (d : DateTime) : Nat := d % 1000000

/-- Twelve hours expressed in microseconds (`12 * 3600` seconds). -/
def twelveHours : Nat := 12 * 3600 * 1000000

/-- The `detail` strings of the HTTPExceptions raised by the services. -/
inductive ErrDetail where
  | toMustBeAfterFrom
  | durationCannotExceedTwelveHours
  | minutesMustBeMultipleOf30
  | hospitalNotFound
  | timetableNotFound
  | onlyAdminsOrManagersAllowed
  | invalidToken
  deriving DecidableEq, Repr

/-- An `HTTPException(status_code, detail)`. -/
structure HTTPError where
  code : Nat
  detail : ErrDetail
  deriving DecidableEq, Repr

/-- A stored `Timetable` row (`id` is the primary key). -/
structure Timetable where
  id : Nat
  hospital_id : Int
  doctor_id : Int
  room : String
  from_time : DateTime
  to_time : DateTime
  deriving DecidableEq, Repr

/-- The `TimetableCreate` request body. -/
structure TimetableCreate where
  hospital_id : Int
  doctor_id : Int
  room : String
  from_time : DateTime
  to_time : DateTime
  deriving DecidableEq, Repr

/-- `validate_time_range` from timetable_service.py: ordering, then duration,
then 30-minute/zero-second alignment, raising on the first failed check. -/
def validate_time_range (from_time to_time : DateTime) : Except HTTPError Unit :=
  if to_time ≤ from_time then
    .error ⟨400, .toMustBeAfterFrom⟩
  else if twelveHours < to_time - from_time then
    .error ⟨400, .durationCannotExceedTwelveHours⟩
  else if dtMinute from_time % 30 ≠ 0 ∨ dtMinute to_time % 30 ≠ 0 ∨
      dtSecond from_time ≠ 0 ∨ dtSecond to_time ≠ 0 then
    .error ⟨400, .minutesMustBeMultipleOf30⟩
  else
    .ok ()

/-- `hospital_exists` from timetable_service.py, as a function of the status
code the hospital directory returned for the id: any non-200 status raises
404 "Hospital not found". -/
def hospital_exists (statusCode : Nat) : Except HTTPError Unit :=
  if statusCode ≠ 200 then .error ⟨404, .hospitalNotFound⟩ else .ok ()

/-- The token payload dict handed to the role guard: `.get` of a missing key
yields `none`. -/
structure TokenInfo where
  user_id : Option Int
  role : Option String
  deriving DecidableEq, Repr

/-- `admin_or_manager_required` from timetable_service.py:
`token.get("role") not in ["admin", "manager"]` raises 403. -/
def admin_or_manager_required (token : TokenInfo) : Except HTTPError Unit :=
  if token.role ≠ some "admin" ∧ token.role ≠ some "manager" then
    .error ⟨403, .onlyAdminsOrManagersAllowed⟩
  else
    .ok ()

/-- `create_timetable` (POST /api/Timetable) body, after the role guard:
validate the range, check the hospital (`env` maps a hospital id to the
remote lookup's status code), and only then append the new row.  The
database list is returned unchanged on every error. -/
def create_timetable (env : Int → Nat) (tc : TimetableCreate)
    (db : List Timetable) (nextId : Nat) :
    List Timetable × Except HTTPError Timetable :=
  match validate_time_range tc.from_time tc.to_time with
  | .error e => (db, .error e)
  | .ok _ =>
    match hospital_exists (env tc.hospital_id) with
    | .error e => (db, .error e)
    | .ok _ =>
      let newT : Timetable :=
        ⟨nextId, tc.hospital_id, tc.doctor_id, tc.room, tc.from_time, tc.to_time⟩
      (db ++ [newT], .ok newT)

/-- Primary-key lookup `session.get(Timetable, id)`. -/
def dbGet (id : Nat) (db : List Timetable) : Option Timetable :=
  db.find? (fun t => t.id == id)

/-- `update_timetable` (PUT /api/Timetable/{id}) body, after the role guard:
validate the range, look the row up, then overwrite every `TimetableCreate`
field of the stored row.  The source performs no hospital existence check
here. -/
def update_timetable (id : Nat) (tc : TimetableCreate) (db : List Timetable) :
    List Timetable × Except HTTPError Timetable :=
  match validate_time_range tc.from_time tc.to_time with
  | .error e => (db, .error e)
  | .ok _ =>
    match dbGet id db with
    | none => (db, .error ⟨404, .timetableNotFound⟩)
    | some existing =>
      let updated : Timetable :=
        { existing with
            hospital_id := tc.hospital_id, doctor_id := tc.doctor_id,
            room := tc.room, from_time := tc.from_time, to_time := tc.to_time }
      (db.map (fun t => if t.id == id then updated else t), .ok updated)

/-- `delete_timetable` (DELETE /api/Timetable/{id}) body, after the role
guard. -/
def delete_timetable (id : Nat) (db : List Timetable) :
    List Timetable × Except HTTPError Unit :=
  match dbGet id db with
  | none => (db, .error ⟨404, .timetableNotFound⟩)
  | some _ => (db.filter (fun t => t.id != id), .ok ())

/-- `get_timetable_for_hospital` (GET /api/Timetable/Hospital/{id}): select
rows with this hospital id whose start is `>= from_time` and whose end is
`<= to_time`; no pagination. -/
def get_timetable_for_hospital (id : Int) (from_time to_time : DateTime)
    (db : List Timetable) : List Timetable :=
  db.filter (fun t =>
    decide (t.hospital_id = id ∧ from_time ≤ t.from_time ∧ t.to_time ≤ to_time))

/-- The POST endpoint with its `admin_or_manager_required` dependency. -/
def create_timetable_endpoint (token : TokenInfo) (env : Int → Nat)
    (tc : TimetableCreate) (db : List Timetable) (nextId : Nat) :
    List Timetable × Except HTTPError Timetable :=
  match admin_or_manager_required token with
  | .error e => (db, .error e)
  | .ok _ => create_timetable env tc db nextId

/-- The PUT endpoint with its `admin_or_manager_required` dependency. -/
def update_timetable_endpoint (token : TokenInfo) (id : Nat)
    (tc : TimetableCreate) (db : List Timetable) :
    List Timetable × Except HTTPError Timetable :=
  match admin_or_manager_required token with
  | .error e => (db, .error e)
  | .ok _ => update_timetable id tc db

/-- The DELETE endpoint with its `admin_or_manager_required` dependency. -/
def delete_timetable_endpoint (token : TokenInfo) (id : Nat)
    (db : List Timetable) : List Timetable × Except HTTPError Unit :=
  match admin_or_manager_required token with
  | .error e => (db, .error e)
  | .ok _ => delete_timetable id db

end TimetableService

namespace AccountService

/-- A decoded JWT payload; `.get` of an absent claim yields `none`. -/
structure JwtPayload where
  user_id : Option Int
  role : Option String
  deriving DecidableEq, Repr

/-- A JSON value as it appears in the Validate response body. -/
inductive JsonValue where
  | bool (b : Bool)
  | num (n : Int)
  | str (s : String)
  | null
  deriving DecidableEq, Repr

/-- `validate_token` (GET /api/Authentication/Validate) from
account_service.py, as a function of the outcome of `jwt.decode` (`none`
models a `JWTError`).  On success the source builds the response dict with
exactly the keys `valid` and `user_id`. -/
def validate_token (decoded : Option JwtPayload) :
    Except TimetableService.HTTPError (List (String × JsonValue)) :=
  match decoded with
  | none => .error ⟨401, .invalidToken⟩
  | some payload =>
    .ok [("valid", .bool true),
         ("user_id", match payload.user_id with
           | some n => .num n
           | none => .null)]

end AccountService

namespace TimetableService

/-- Claim C1: every pair of instants with `to_time` strictly after
`from_time`, duration at most 12 hours (12 hours exactly included), minute
components multiples of 30 and zero seconds, is accepted by
`validate_time_range`. -/
theorem validate_accepts_aligned (ft tt : Nat) (h1 : ft < tt)
    (h2 : tt - ft ≤ twelveHours)
    (h3 : dtMinute ft % 30 = 0) (h4 : dtMinute tt % 30 = 0)
    (h5 : dtSecond ft = 0) (h6 : dtSecond tt = 0) :
    validate_time_range ft tt = .ok () := by
  have hc1 : ¬ (tt ≤ ft) := by omega
  have hc2 : ¬ (twelveHours < tt - ft) := by omega
  have hc3 : ¬ (dtMinute ft % 30 ≠ 0 ∨ dtMinute tt % 30 ≠ 0 ∨
      dtSecond ft ≠ 0 ∨ dtSecond tt ≠ 0) := by
    push_neg
    exact ⟨h3, h4, h5, h6⟩
  simp only [validate_time_range, if_neg hc1, if_neg hc2, if_neg hc3]

/-- Witness for C1: `00:00:00`–`12:00:00` (exactly 12 hours) is accepted. -/
theorem validate_accepts_aligned_witness :
    validate_time_range 0 43200000000 = .ok () :=
  validate_accepts_aligned 0 43200000000 (by decide) (by decide) (by decide)
    (by decide) (by decide) (by decide)

/-- Claim C2: the three rules fire in order with first failure winning:
`to <= from` always yields the ordering error; valid ordering with duration
over 12 hours always yields the duration error; the alignment error is only
reachable when ordering and duration both passed. -/
theorem validate_rule_order :
    (∀ ft tt : Nat, tt ≤ ft →
      validate_time_range ft tt = .error ⟨400, .toMustBeAfterFrom⟩) ∧
    (∀ ft tt : Nat, ft < tt → twelveHours < tt - ft →
      validate_time_range ft tt = .error ⟨400, .durationCannotExceedTwelveHours⟩) ∧
    (∀ ft tt : Nat,
      validate_time_range ft tt = .error ⟨400, .minutesMustBeMultipleOf30⟩ →
      ft < tt ∧ tt - ft ≤ twelveHours) := by
  refine ⟨?_, ?_, ?_⟩
  · intro ft tt h
    unfold validate_time_range
    rw [if_pos h]
  · intro ft tt h1 h2
    have hc1 : ¬ (tt ≤ ft) := by omega
    simp only [validate_time_range, if_neg hc1, if_pos h2]
  · intro ft tt h
    unfold validate_time_range at h
    split at h
    next hc1 => exact absurd h (by simp)
    next hc1 =>
      split at h
      next hc2 => exact absurd h (by simp)
      next hc2 =>
        have hc1n : ¬ (tt ≤ ft) := hc1
        have hc2n : ¬ (twelveHours < tt - ft) := hc2
        exact ⟨by omega, by omega⟩

/-- Witness for C2: an unaligned, over-long, badly ordered pair still fails
with the ordering error. -/
theorem validate_rule_order_witness :
    validate_time_range 99000001 7 = .error ⟨400, .toMustBeAfterFrom⟩ :=
  validate_rule_order.1 99000001 7 (by decide)

/-- Claim C9: the alignment rule reads only the minute and second
components, so a pair meeting the C1 conditions is accepted even when one
of the instants carries a nonzero microsecond component. -/
theorem validate_ignores_microseconds (ft tt : Nat) (h1 : ft < tt)
    (h2 : tt - ft ≤ twelveHours)
    (h3 : dtMinute ft % 30 = 0) (h4 : dtMinute tt % 30 = 0)
    (h5 : dtSecond ft = 0) (h6 : dtSecond tt = 0)
    (h7 : dtMicrosecond ft ≠ 0 ∨ dtMicrosecond tt ≠ 0) :
    validate_time_range ft tt = .ok () := by
  have hc1 : ¬ (tt ≤ ft) := by omega
  have hc2 : ¬ (twelveHours < tt - ft) := by omega
  have hc3 : ¬ (dtMinute ft % 30 ≠ 0 ∨ dtMinute tt % 30 ≠ 0 ∨
      dtSecond ft ≠ 0 ∨ dtSecond tt ≠ 0) := by
    push_neg
    exact ⟨h3, h4, h5, h6⟩
  simp only [validate_time_range, if_neg hc1, if_neg hc2, if_neg hc3]

/-- Witness for C9: `00:00:00.500000`–`01:00:00.500000` is accepted even
though both instants have 500000 microseconds. -/
theorem validate_ignores_microseconds_witness :
    validate_time_range 500000 3600500000 = .ok () :=
  validate_ignores_microseconds 500000 3600500000 (by decide) (by decide)
    (by decide) (by decide) (by decide) (by decide) (Or.inl (by decide))

/-- Claim C4: the hospital-window query returns exactly the stored rows of
that hospital fully contained in the window, with no pagination: membership
in the result is equivalent to membership in the store together with the
hospital match, `from_time <= start` and `end <= to_time`. -/
theorem query_returns_contained_rows (id : Int) (ft tt : Nat)
    (db : List Timetable) (t : Timetable) :
    t ∈ get_timetable_for_hospital id ft tt db ↔
      t ∈ db ∧ t.hospital_id = id ∧ ft ≤ t.from_time ∧ t.to_time ≤ tt := by
  simp [get_timetable_for_hospital, List.mem_filter, and_assoc]

end TimetableService

namespace TimetableService

/-- Every error raised by `validate_time_range` carries status code 400. -/
theorem validate_time_range_error_code (ft tt : Nat) (e : HTTPError)
    (h : validate_time_range ft tt = .error e) : e.code = 400 := by
  unfold validate_time_range at h
  split at h
  next =>
    injection h with h2
    subst h2
    rfl
  next =>
    split at h
    next =>
      injection h with h2
      subst h2
      rfl
    next =>
      split at h
      next =>
        injection h with h2
        subst h2
        rfl
      next => simp at h

/-- Claim C5: create is validate, existence-check, persist in that order:
any validation error leaves the store unchanged; a validation pass followed
by a failed hospital check leaves the store unchanged; and the store only
changes when both checks passed, in which case the new row is appended as
the final step and returned. -/
theorem create_timetable_atomic :
    (∀ (env : Int → Nat) (tc : TimetableCreate) (db : List Timetable)
        (nextId : Nat) (e : HTTPError),
      validate_time_range tc.from_time tc.to_time = .error e →
      create_timetable env tc db nextId = (db, .error e)) ∧
    (∀ (env : Int → Nat) (tc : TimetableCreate) (db : List Timetable)
        (nextId : Nat) (e : HTTPError),
      validate_time_range tc.from_time tc.to_time = .ok () →
      hospital_exists (env tc.hospital_id) = .error e →
      create_timetable env tc db nextId = (db, .error e)) ∧
    (∀ (env : Int → Nat) (tc : TimetableCreate) (db : List Timetable)
        (nextId : Nat),
      (create_timetable env tc db nextId).1 ≠ db →
      validate_time_range tc.from_time tc.to_time = .ok () ∧
      hospital_exists (env tc.hospital_id) = .ok () ∧
      create_timetable env tc db nextId =
        (db ++ [⟨nextId, tc.hospital_id, tc.doctor_id, tc.room,
                 tc.from_time, tc.to_time⟩],
         .ok ⟨nextId, tc.hospital_id, tc.doctor_id, tc.room,
              tc.from_time, tc.to_time⟩)) := by
  refine ⟨?_, ?_, ?_⟩
  · intro env tc db nextId e hv
    unfold create_timetable
    rw [hv]
  · intro env tc db nextId e hv hh
    unfold create_timetable
    rw [hv, hh]
  · intro env tc db nextId hne
    unfold create_timetable at hne
    rcases hv : validate_time_range tc.from_time tc.to_time with e | u
    · rw [hv] at hne
      simp at hne
    · cases u
      rw [hv] at hne
      rcases hh : hospital_exists (env tc.hospital_id) with e | u2
      · rw [hh] at hne
        simp at hne
      · cases u2
        refine ⟨rfl, rfl, ?_⟩
        unfold create_timetable
        rw [hv, hh]

/-- Witness for C5: a request whose range fails validation leaves an empty
store empty. -/
theorem create_timetable_atomic_witness :
    create_timetable (fun _ => 200) ⟨1, 1, "A", 5, 5⟩ [] 1 =
      ([], .error ⟨400, .toMustBeAfterFrom⟩) :=
  create_timetable_atomic.1 (fun _ => 200) ⟨1, 1, "A", 5, 5⟩ [] 1
    ⟨400, .toMustBeAfterFrom⟩ rfl

/-- Claim C6: every non-200 status from the hospital lookup makes the
existence check fail with 404 "hospital not found"; a 200 status passes;
and in create, a non-200 lookup after a passed validation aborts with that
404 and an unchanged store. -/
theorem hospital_check_uniform :
    (∀ s : Nat, s ≠ 200 → hospital_exists s = .error ⟨404, .hospitalNotFound⟩) ∧
    (hospital_exists 200 = .ok ()) ∧
    (∀ (env : Int → Nat) (tc : TimetableCreate) (db : List Timetable)
        (nextId : Nat),
      validate_time_range tc.from_time tc.to_time = .ok () →
      env tc.hospital_id ≠ 200 →
      create_timetable env tc db nextId =
        (db, .error ⟨404, .hospitalNotFound⟩)) := by
  refine ⟨?_, rfl, ?_⟩
  · intro s hs
    unfold hospital_exists
    rw [if_pos hs]
  · intro env tc db nextId hv hs
    have hh : hospital_exists (env tc.hospital_id) =
        .error ⟨404, .hospitalNotFound⟩ := by
      unfold hospital_exists
      rw [if_pos hs]
    unfold create_timetable
    rw [hv, hh]

/-- Witness for C6: a 503 from the hospital directory is reported as 404
"hospital not found". -/
theorem hospital_check_uniform_witness :
    hospital_exists 503 = .error ⟨404, .hospitalNotFound⟩ :=
  hospital_check_uniform.1 503 (by decide)

/-- Claim C8: a validated token whose role is neither admin nor manager
makes the create, update and delete endpoints fail with 403 and an
unchanged store, before validation, existence check or persistence; a
token with role admin or manager passes the guard. -/
theorem role_guard_endpoints :
    (∀ (token : TokenInfo) (env : Int → Nat) (tc : TimetableCreate)
        (db : List Timetable) (nextId id : Nat),
      token.role ≠ some "admin" → token.role ≠ some "manager" →
      create_timetable_endpoint token env tc db nextId =
          (db, .error ⟨403, .onlyAdminsOrManagersAllowed⟩) ∧
        update_timetable_endpoint token id tc db =
          (db, .error ⟨403, .onlyAdminsOrManagersAllowed⟩) ∧
        delete_timetable_endpoint token id db =
          (db, .error ⟨403, .onlyAdminsOrManagersAllowed⟩)) ∧
    (∀ token : TokenInfo,
      token.role = some "admin" ∨ token.role = some "manager" →
      admin_or_manager_required token = .ok ()) := by
  constructor
  · intro token env tc db nextId id h1 h2
    have hg : admin_or_manager_required token =
        .error ⟨403, .onlyAdminsOrManagersAllowed⟩ := by
      unfold admin_or_manager_required
      rw [if_pos ⟨h1, h2⟩]
    refine ⟨?_, ?_, ?_⟩
    · unfold create_timetable_endpoint
      rw [hg]
    · unfold update_timetable_endpoint
      rw [hg]
    · unfold delete_timetable_endpoint
      rw [hg]
  · intro token h
    have hc : ¬ (token.role ≠ some "admin" ∧ token.role ≠ some "manager") := by
      rcases h with h | h
      · exact fun hand => hand.1 h
      · exact fun hand => hand.2 h
    unfold admin_or_manager_required
    rw [if_neg hc]

/-- Witness for C8: a token with role doctor is rejected with 403 by the
create endpoint and the store is untouched. -/
theorem role_guard_endpoints_witness :
    create_timetable_endpoint ⟨some 1, some "doctor"⟩ (fun _ => 200)
        ⟨1, 1, "A", 0, 1800000000⟩ [] 1 =
      ([], .error ⟨403, .onlyAdminsOrManagersAllowed⟩) :=
  (role_guard_endpoints.1 ⟨some 1, some "doctor"⟩ (fun _ => 200)
    ⟨1, 1, "A", 0, 1800000000⟩ [] 1 1 (by decide) (by decide)).1

end TimetableService

namespace TimetableService

/-- Claim C10: update runs the time-range validation before the stored row
is looked up: an invalid range yields the 400 validation error even on an
empty store (the 404 timetable-not-found error is only reachable once
validation passed), and on any failure the store is unchanged. -/
theorem update_validates_before_lookup :
    (∀ (id : Nat) (tc : TimetableCreate) (db : List Timetable) (e : HTTPError),
      validate_time_range tc.from_time tc.to_time = .error e →
      update_timetable id tc db = (db, .error e) ∧ e.code = 400) ∧
    (∀ (id : Nat) (tc : TimetableCreate) (db : List Timetable),
      (update_timetable id tc db).2 = .error ⟨404, .timetableNotFound⟩ →
      validate_time_range tc.from_time tc.to_time = .ok ()) ∧
    (∀ (id : Nat) (tc : TimetableCreate) (db : List Timetable) (e : HTTPError),
      (update_timetable id tc db).2 = .error e →
      (update_timetable id tc db).1 = db) := by
  refine ⟨?_, ?_, ?_⟩
  · intro id tc db e hv
    refine ⟨?_, validate_time_range_error_code _ _ _ hv⟩
    unfold update_timetable
    rw [hv]
  · intro id tc db h
    unfold update_timetable at h
    rcases hv : validate_time_range tc.from_time tc.to_time with e | u
    · rw [hv] at h
      simp only [] at h
      injection h with h2
      have h400 := validate_time_range_error_code _ _ _ hv
      rw [h2] at h400
      exact absurd h400 (by decide)
    · cases u
      rfl
  · intro id tc db e h
    unfold update_timetable at h ⊢
    rcases hv : validate_time_range tc.from_time tc.to_time with e2 | u
    · rfl
    · cases u
      rcases hg : dbGet id db with _ | ex
      · rfl
      · rw [hv, hg] at h
        simp at h

/-- Witness for C10: updating a missing id with a backwards range on the
empty store fails with the 400 ordering error, not 404. -/
theorem update_validates_before_lookup_witness :
    update_timetable 1 ⟨1, 1, "A", 5, 5⟩ [] =
        ([], .error ⟨400, .toMustBeAfterFrom⟩) ∧
      (⟨400, ErrDetail.toMustBeAfterFrom⟩ : HTTPError).code = 400 :=
  update_validates_before_lookup.1 1 ⟨1, 1, "A", 5, 5⟩ []
    ⟨400, .toMustBeAfterFrom⟩ rfl

/-- Counterexample to claim C3 as stated: the hospital existence check
fails on a 404 lookup answer, yet with the directory answering 404 for
every id the update still succeeds and overwrites the row, because the
source's `update_timetable` never consults `hospital_exists`. -/
theorem update_skips_hospital_check :
    hospital_exists 404 = .error ⟨404, .hospitalNotFound⟩ ∧
    update_timetable 1 ⟨7, 2, "B", 0, 3600000000⟩ [⟨1, 5, 5, "A", 0, 1800000000⟩] =
      ([⟨1, 7, 2, "B", 0, 3600000000⟩], .ok ⟨1, 7, 2, "B", 0, 3600000000⟩) :=
  ⟨rfl, rfl⟩

/-- Claim C3 (amended): the update operation re-runs the time-range
validation — but not the remote hospital existence check — before
replacing all mutable fields of the existing record: a validation error
aborts with the store unchanged, and once validation passes and the row
exists, every `TimetableCreate` field of the stored row is overwritten,
irrespective of any hospital lookup outcome. -/
theorem update_reruns_validation_and_replaces :
    (∀ (id : Nat) (tc : TimetableCreate) (db : List Timetable) (e : HTTPError),
      validate_time_range tc.from_time tc.to_time = .error e →
      update_timetable id tc db = (db, .error e)) ∧
    (∀ (id : Nat) (tc : TimetableCreate) (db : List Timetable)
        (existing : Timetable),
      validate_time_range tc.from_time tc.to_time = .ok () →
      dbGet id db = some existing →
      update_timetable id tc db =
        (db.map (fun t => if t.id == id then
            { existing with
                hospital_id := tc.hospital_id, doctor_id := tc.doctor_id,
                room := tc.room, from_time := tc.from_time,
                to_time := tc.to_time }
          else t),
         .ok { existing with
                hospital_id := tc.hospital_id, doctor_id := tc.doctor_id,
                room := tc.room, from_time := tc.from_time,
                to_time := tc.to_time })) := by
  constructor
  · intro id tc db e hv
    unfold update_timetable
    rw [hv]
  · intro id tc db existing hv hg
    unfold update_timetable
    rw [hv, hg]

/-- Witness for the amended C3: a valid-range update of the single stored
row replaces all its mutable fields. -/
theorem update_reruns_validation_and_replaces_witness :
    update_timetable 1 ⟨7, 2, "B", 0, 3600000000⟩ [⟨1, 5, 5, "A", 0, 1800000000⟩] =
      ([⟨1, 7, 2, "B", 0, 3600000000⟩].map (fun t => if t.id == 1 then
          ⟨1, 7, 2, "B", 0, 3600000000⟩ else t),
       .ok ⟨1, 7, 2, "B", 0, 3600000000⟩) := by
  have h := update_reruns_validation_and_replaces.2 1
    ⟨7, 2, "B", 0, 3600000000⟩ [⟨1, 5, 5, "A", 0, 1800000000⟩]
    ⟨1, 5, 5, "A", 0, 1800000000⟩ rfl rfl
  simpa using h

end TimetableService

namespace AccountService

/-- Claim C7 evaluated on the code (the claim fails): for a successfully
decoded token that carries both a user id and a role, the Validate
response holds the keys `valid` and `user_id` but no `role` key — even
though the timetable service's role guard reads `role` from this
response. -/
theorem validate_token_response_lacks_role :
    ∃ resp, validate_token (some ⟨some 1, some "admin"⟩) = .ok resp ∧
      resp.lookup "valid" = some (.bool true) ∧
      resp.lookup "user_id" = some (.num 1) ∧
      resp.lookup "role" = none :=
  ⟨_, rfl, rfl, rfl, rfl⟩

end AccountService
